import Mathlib

/-!
Shallow embedding of the Discord stock-alert bot (src/main.py).

Prices, target prices and percentages are modelled as exact rationals;
Python decimal literals (0.382, 0.5, 0.618, 0.70, 5.0) are taken at face
value as the corresponding rationals.  Float NaN and pandas missing
values arising inside the technical-level computation are modelled as
`none : Option ℚ`.  A fetched price that is unavailable is `none`.
-/

set_option maxRecDepth 10000

namespace StockBot

/-- One entry of the global dict `user_targets[uid][stock]`
(main.py lines 296-303 and 455-462): every writer (`set_target_cmd`,
`EditTargetModal.on_submit`) stores exactly the keys `target`,
`trigger_type` and `alert_threshold_percent`. -/
structure TargetData where
  target : ℚ
  trigger_type : String
  alert_threshold_percent : ℚ
deriving DecidableEq, Repr

/-- The condition `should_notify_approaching` computed in
`StockBot.run_user_check` (main.py lines 357-364): for trigger type
"below" the price must lie strictly above the target but at or below
`target * (1 + alert_threshold_percent / 100)`; symmetrically for
"above".  Any other trigger string selects neither branch. -/
def shouldNotifyApproaching (d : TargetData) (price : ℚ) : Bool :=
  if d.trigger_type = "below" then
    decide (d.target < price ∧ price ≤ d.target * (1 + d.alert_threshold_percent / 100))
  else if d.trigger_type = "above" then
    decide (d.target > price ∧ price ≥ d.target * (1 - d.alert_threshold_percent / 100))
  else false

/-- The condition `should_notify` computed in `StockBot.run_user_check`
(main.py lines 393-398): fires when `price <= target` for trigger type
"below", and when `price >= target` for "above". -/
def shouldNotify (d : TargetData) (price : ℚ) : Bool :=
  if d.trigger_type = "below" then decide (price ≤ d.target)
  else if d.trigger_type = "above" then decide (price ≥ d.target)
  else false

/-- Observable per-target effects of the monitoring loop:
how many approaching / target-reached notifications have been sent,
how many `message.delete()` calls were made for this target, and the
message handle recorded for this target in the global `user_messages`
dict (key `(uid, stock)`), if any. -/
structure AlertTrace where
  approachSends : Nat
  firedSends : Nat
  deleteCalls : Nat
  recordedHandle : Option Nat
deriving DecidableEq, Repr

/-- Initial state: no notifications sent, no deletes, and no entry in
`user_messages` (the dict starts empty, main.py line 26). -/
def initTrace : AlertTrace := ⟨0, 0, 0, none⟩

/-- One iteration of the per-stock loop body of `run_user_check`
(main.py lines 348-424) for a single target, given the fetched price
(`none` models `async_fetch_price` returning `None`).  On `None` the
body executes `continue` (line 355).  Otherwise it sends an approaching
notification when `should_notify_approaching` holds (lines 366-391) and
a target-reached notification when `should_notify` holds (lines
400-424).  The body never reads or writes `user_messages` and never
calls `delete` on any message, so `deleteCalls` and `recordedHandle`
are left untouched. -/
def checkTargetStep (d : TargetData) (price : Option ℚ) (s : AlertTrace) : AlertTrace :=
  match price with
  | none => s
  | some p =>
      let s1 := if shouldNotifyApproaching d p then
        { s with approachSends := s.approachSends + 1 } else s
      if shouldNotify d p then { s1 with firedSends := s1.firedSends + 1 } else s1

/-- Consecutive monitoring cycles on one target: each cycle evaluates
the target against the price fetched in that cycle. -/
def runCycles (d : TargetData) (prices : List (Option ℚ)) : AlertTrace :=
  prices.foldl (fun s p => checkTargetStep d p s) initTrace

/-- The symbols for which `run_user_check` calls `async_fetch_price`
(main.py line 353): one unconditional fetch per stock entry of the
target dict of the user. -/
def run_user_check_fetches (targets : List (String × TargetData)) : List String :=
  targets.map Prod.fst

/-- The symbols fetched during one `auto_check` cycle (main.py lines
330-345): users whose role is "VIP1" are checked every minute, other
users only when the current minute is divisible by 5; each checked user
contributes one fetch per target.  `roles` models
`user_roles.get(str(uid), "regular")` with the default applied. -/
def auto_check_fetches (minute : Nat) (roles : Nat → String) :
    List (Nat × List (String × TargetData)) → List String
  | [] => []
  | u :: regs =>
      if roles u.1 = "VIP1" ∨ minute % 5 = 0 then
        run_user_check_fetches u.2 ++ auto_check_fetches minute roles regs
      else auto_check_fetches minute roles regs

/-- The mutation performed by `EditTargetModal.on_submit` on the
target dict of the submitting user after validation succeeds (main.py lines
296-303): the edited symbol is overwritten with the new price and
trigger, while `alert_threshold_percent` is looked up from the previous
entry with default `5.0`
(`user_targets[uid].get(symbol, 0).get("alert_threshold_percent", 5.0)` with `0` standing for the empty-dict default).
The validation failure paths (non-numeric price, unknown trigger text)
return before this assignment and leave the dict untouched. -/
def editOnSubmit (tgts : String → Option TargetData) (symbol : String)
    (value : ℚ) (trigger : String) : String → Option TargetData :=
  fun s =>
    if s = symbol then
      some { target := value, trigger_type := trigger,
             alert_threshold_percent :=
               ((tgts symbol).map TargetData.alert_threshold_percent).getD 5 }
    else tgts s

/-! ## Technical Level Calculator (`calculate_technical_levels`, main.py lines 73-154) -/

/-- One row of the yfinance history DataFrame: the columns used by
`calculate_technical_levels` (High, Low, Close, Volume), with no
missing cells in the raw data. -/
structure Bar where
  high : ℚ
  low : ℚ
  close : ℚ
  volume : ℚ
deriving DecidableEq, Repr

/-- The DataFrame returned by `fetch_historical_data_blocking`: a
sequence of daily bars plus flags recording whether each of the four
columns used by the calculator is present. -/
structure DataFrame where
  hasHigh : Bool
  hasLow : Bool
  hasClose : Bool
  hasVolume : Bool
  bars : List Bar
deriving DecidableEq, Repr

/-- Python `round(x, 2)`: round to 2 decimal places.  Ties at half a
cent are rounded here half-up while Python uses banker rounding; no
input below involves such a tie. -/
def round2 (q : ℚ) : ℚ := ((round (q * 100) : ℤ) : ℚ) / 100

/-- `data["High"].max()` over a nonempty frame `b :: bs`. -/
def swingHigh (b : Bar) (bs : List Bar) : ℚ := (bs.map Bar.high).foldl max b.high

/-- `data["Low"].min()` over a nonempty frame `b :: bs`. -/
def swingLow (b : Bar) (bs : List Bar) : ℚ := (bs.map Bar.low).foldl min b.low

/-- Classic pivot point `(H_last + L_last + C_last) / 3` of the last
bar of the nonempty frame `b :: bs` (main.py line 83). -/
def pivotPoint (b : Bar) (bs : List Bar) : ℚ :=
  ((bs.getLastD b).high + (bs.getLastD b).low + (bs.getLastD b).close) / 3

/-- True-range entries after the first row: `np.maximum.reduce` of
`High - Low`, `|High - Close.shift()|`, `|Low - Close.shift()|`
(main.py lines 101-105), threading the previous close. -/
def trAux (prev : Bar) : List Bar → List (Option ℚ)
  | [] => []
  | b :: bs =>
      some (max (b.high - b.low) (max |b.high - prev.close| |b.low - prev.close|)) ::
        trAux b bs

/-- The full `tr` column: `Close.shift()` is NaN on the first row, and
`np.maximum` propagates NaN, so the first entry is undefined. -/
def trList : List Bar → List (Option ℚ)
  | [] => []
  | b :: bs => none :: trAux b bs

/-- Collects a list of possibly-undefined values; any NaN poisons the
whole list (as it poisons a pandas window mean). -/
def seqOption : List (Option ℚ) → Option (List ℚ)
  | [] => some []
  | none :: _ => none
  | some x :: xs => (seqOption xs).map (fun ys => x :: ys)

/-- `series.rolling(window=w).mean().iloc[-1]`: undefined when fewer
than `w` entries exist or when the last `w`-window contains an
undefined entry; otherwise the mean of the last `w` entries. -/
def rollingMeanLast (w : Nat) (xs : List (Option ℚ)) : Option ℚ :=
  if xs.length < w then none
  else
    match seqOption (xs.drop (xs.length - w)) with
    | none => none
    | some vs => some (vs.sum / (w : ℚ))

/-- First index of the maximum of a list (`np.argmax`); 0 on `[]`. -/
def argmaxIdx (xs : List ℚ) : Nat :=
  (xs.foldl
    (fun st x =>
      if x > st.2.1 then (st.2.2, x, st.2.2 + 1) else (st.1, st.2.1, st.2.2 + 1))
    (0, xs.getD 0 0, 0)).1

/-- Inserts index `i` into a list sorted descending by histogram value,
breaking ties by larger index first — the order of
`np.argsort(hist)[::-1]` for a stable ascending argsort. -/
def insertDesc (hist : List ℚ) (i : Nat) : List Nat → List Nat
  | [] => [i]
  | j :: rest =>
      if hist.getD i 0 > hist.getD j 0 ∨ (hist.getD i 0 = hist.getD j 0 ∧ j < i) then
        i :: j :: rest
      else j :: insertDesc hist i rest

/-- `np.argsort(hist)[::-1]` for the 50-bin histogram: all bin indices
sorted descending by weighted volume (tie order as in `insertDesc`;
the numpy quicksort leaves the tie order unspecified, and no result below
depends on it). -/
def argsortDesc (hist : List ℚ) : List Nat :=
  (List.range 50).foldl (fun acc i => insertDesc hist i acc) []

/-- The value-area accumulation loop (main.py lines 128-132): walk the
bins in descending-volume order, accumulating weighted volume, keeping
each visited index, and stop once the accumulated share reaches 70%.
With total volume 0 the share comparison never succeeds (in numpy the
quotient is NaN, here division by zero yields 0), so all bins are kept
— matching the Python loop running to exhaustion. -/
def valueAreaWalk (hist : List ℚ) (total : ℚ) :
    List Nat → ℚ → List Nat → List Nat
  | [], _, acc => acc.reverse
  | i :: rest, cum, acc =>
      let cum2 := cum + hist.getD i 0
      if cum2 / total ≥ 7/10 then (i :: acc).reverse
      else valueAreaWalk hist total rest cum2 (i :: acc)

/-- The inner helper `calculate_volume_profile(df, num_bins=50)`
(main.py lines 113-137), applied to the last 120 bars.  `dropna` is the
identity because raw bars carry no missing cells.  `np.histogram` with
50 bins spans `[min, max]` of the closing prices, widened to
`[min - 0.5, max + 0.5]` when all prices coincide; a price equal to the
top edge falls in the last bin, every other price in the bin its offset
floors into.  Returns the rounded point of control and rounded value
area `(low, high)`.  The `[]` branch after the walk is unreachable
(the walk always keeps at least one index). -/
def calculate_volume_profile (df : List Bar) : Option ℚ × Option (ℚ × ℚ) :=
  match df with
  | [] => (none, none)
  | b :: bs =>
      let prices := (b :: bs).map Bar.close
      let volumes := (b :: bs).map Bar.volume
      let mn := (bs.map Bar.close).foldl min b.close
      let mx := (bs.map Bar.close).foldl max b.close
      let lo := if mn = mx then mn - 1/2 else mn
      let hi := if mn = mx then mx + 1/2 else mx
      let edges := (List.range 51).map (fun j => lo + (j : ℚ) * (hi - lo) / 50)
      let binOf := fun (p : ℚ) =>
        if p = hi then 49 else Int.toNat ⌊(p - lo) * 50 / (hi - lo)⌋
      let hist := (List.range 50).map (fun j =>
        ((prices.zip volumes).filter (fun pv => binOf pv.1 = j)).foldl
          (fun acc pv => acc + pv.2) 0)
      let pocIndex := argmaxIdx hist
      let pocPrice := (edges.getD pocIndex 0 + edges.getD (pocIndex + 1) 0) / 2
      let total := hist.sum
      let va := valueAreaWalk hist total (argsortDesc hist) 0 []
      match va with
      | [] => (none, none)
      | i0 :: is =>
          let vaLow := (is.map (fun i => edges.getD i 0)).foldl min (edges.getD i0 0)
          let vaHigh :=
            (is.map (fun i => edges.getD (i + 1) 0)).foldl max (edges.getD (i0 + 1) 0)
          (some (round2 pocPrice), some (round2 vaLow, round2 vaHigh))

/-- The dict returned by `calculate_technical_levels` (main.py lines
141-151): exactly the keys `pivot_s1`, `pivot_r1`, `fib_s1`, `fib_r1`,
`atr_s1`, `atr_r1`, `poc`, `va_low`, `va_high`.  `none` models a
Python `None` value (for `poc`/`va_low`/`va_high`) or a float NaN (for
the ATR entries when the window is short). -/
structure TechLevels where
  pivot_s1 : ℚ
  pivot_r1 : ℚ
  fib_s1 : ℚ
  fib_r1 : ℚ
  atr_s1 : Option ℚ
  atr_r1 : Option ℚ
  poc : Option ℚ
  va_low : Option ℚ
  va_high : Option ℚ
deriving DecidableEq, Repr

/-- The returned dict as an ordered key/value association, mirroring
the literal at main.py lines 141-151. -/
def TechLevels.toDict (t : TechLevels) : List (String × Option ℚ) :=
  [("pivot_s1", some t.pivot_s1), ("pivot_r1", some t.pivot_r1),
   ("fib_s1", some t.fib_s1), ("fib_r1", some t.fib_r1),
   ("atr_s1", t.atr_s1), ("atr_r1", t.atr_r1),
   ("poc", t.poc), ("va_low", t.va_low), ("va_high", t.va_high)]

/-- The body of the outer `try` of `calculate_technical_levels`
(main.py lines 79-151) on a nonempty frame with all columns present.
The unused Fibonacci levels `s2/s3/r2/r3` and ATR levels `s2/r2`
computed by the source are reproduced as dead bindings. -/
def techLevelsOf (b : Bar) (bs : List Bar) : TechLevels :=
  let bars := b :: bs
  let lastDay := bs.getLastD b
  let p_point := pivotPoint b bs
  let s1_pivot := 2 * p_point - lastDay.high
  let r1_pivot := 2 * p_point - lastDay.low
  let high_fib := swingHigh b bs
  let low_fib := swingLow b bs
  let fib_range := high_fib - low_fib
  let fib_s1 := high_fib - 382/1000 * fib_range
  let fib_s2 := high_fib - 1/2 * fib_range
  let fib_s3 := high_fib - 618/1000 * fib_range
  let fib_r1 := low_fib + 382/1000 * fib_range
  let fib_r2 := low_fib + 1/2 * fib_range
  let fib_r3 := low_fib + 618/1000 * fib_range
  let atr := rollingMeanLast 14 (trList bars)
  let atr_s1 := atr.map (fun a => lastDay.close - 1 * a)
  let atr_r1 := atr.map (fun a => lastDay.close + 1 * a)
  let atr_s2 := atr.map (fun a => lastDay.close - 2 * a)
  let atr_r2 := atr.map (fun a => lastDay.close + 2 * a)
  let pv := calculate_volume_profile (bars.drop (bars.length - 120))
  { pivot_s1 := round2 s1_pivot
    pivot_r1 := round2 r1_pivot
    fib_s1 := round2 fib_s1
    fib_r1 := round2 fib_r1
    atr_s1 := atr_s1.map round2
    atr_r1 := atr_r1.map round2
    poc := pv.1
    va_low := pv.2.map Prod.fst
    va_high := pv.2.map Prod.snd }

/-- `calculate_technical_levels` (main.py lines 73-154) as a function
of the fetched frame (`none` models `fetch_historical_data_blocking`
returning `None`).  An empty frame returns `None` (line 76-77).  A
missing column raises `KeyError` at its first access, which the outer
`except` (lines 152-154) converts to `None`; since work already done is
discarded, this is modelled as an upfront column check.  The result
otherwise is `techLevelsOf`. -/
def calculate_technical_levels (data : Option DataFrame) : Option TechLevels :=
  match data with
  | none => none
  | some f =>
      match f.bars with
      | [] => none
      | b :: bs =>
          if f.hasHigh && f.hasLow && f.hasClose && f.hasVolume then
            some (techLevelsOf b bs)
          else none

/-! ## Concrete inputs used as witnesses and counterexamples -/

/-- A one-bar frame with High 110, Low 90, Close 100, Volume 10. -/
def frame1 : DataFrame := ⟨true, true, true, true, [⟨110, 90, 100, 10⟩]⟩

/-- A degenerate one-bar frame in which the swing high equals the
swing low (High = Low = Close = 100). -/
def frameDeg : DataFrame := ⟨true, true, true, true, [⟨100, 100, 100, 10⟩]⟩

/-- A five-bar frame (fewer than 20 bars, and fewer than the 15 needed
for a defined 14-bar ATR). -/
def frame5 : DataFrame := ⟨true, true, true, true,
  [⟨12, 8, 10, 100⟩, ⟨13, 9, 11, 50⟩, ⟨14, 10, 12, 80⟩, ⟨15, 11, 13, 60⟩, ⟨16, 12, 14, 70⟩]⟩

/-- A one-target registry for a user: AAPL at 100, trigger "below",
threshold 7%. -/
def tgts0 : String → Option TargetData :=
  fun s => if s = "AAPL" then some ⟨100, "below", 7⟩ else none

/-! ## Helper lemmas -/

/-- One loop-body step never touches `deleteCalls` or the recorded
message handle: `run_user_check` neither reads nor writes
`user_messages` and never deletes a message. -/
theorem checkTargetStep_frame (d : TargetData) (p : Option ℚ) (s : AlertTrace) :
    (checkTargetStep d p s).deleteCalls = s.deleteCalls ∧
      (checkTargetStep d p s).recordedHandle = s.recordedHandle := by
  cases p with
  | none => exact ⟨rfl, rfl⟩
  | some q =>
      by_cases ha : shouldNotifyApproaching d q <;>
        by_cases hf : shouldNotify d q <;>
          simp [checkTargetStep, ha, hf]

/-- Folding the loop body preserves `deleteCalls` and the recorded
handle from any starting state. -/
theorem foldl_frame (d : TargetData) (ps : List (Option ℚ)) :
    ∀ s : AlertTrace,
      (ps.foldl (fun t p => checkTargetStep d p t) s).deleteCalls = s.deleteCalls ∧
        (ps.foldl (fun t p => checkTargetStep d p t) s).recordedHandle = s.recordedHandle := by
  induction ps with
  | nil => intro s; exact ⟨rfl, rfl⟩
  | cons p ps ih =>
      intro s
      have h1 := checkTargetStep_frame d p s
      have h2 := ih (checkTargetStep d p s)
      simp only [List.foldl_cons]
      exact ⟨h2.1.trans h1.1, h2.2.trans h1.2⟩

/-- One loop-body step increments `approachSends` exactly when the
approaching condition holds for an available price. -/
theorem checkTargetStep_approachSends (d : TargetData) (p : Option ℚ) (s : AlertTrace) :
    (checkTargetStep d p s).approachSends =
      s.approachSends +
        (if (p.map (shouldNotifyApproaching d)).getD false then 1 else 0) := by
  cases p with
  | none => simp [checkTargetStep]
  | some q =>
      by_cases ha : shouldNotifyApproaching d q <;>
        by_cases hf : shouldNotify d q <;>
          simp [checkTargetStep, ha, hf]

/-- Folding the loop body adds one approaching notification per cycle
whose available price lies in the approach band. -/
theorem foldl_approachSends (d : TargetData) (ps : List (Option ℚ)) :
    ∀ s : AlertTrace,
      (ps.foldl (fun t p => checkTargetStep d p t) s).approachSends =
        s.approachSends +
          ps.countP (fun p => (p.map (shouldNotifyApproaching d)).getD false) := by
  induction ps with
  | nil => intro s; simp
  | cons p ps ih =>
      intro s
      simp only [List.foldl_cons, List.countP_cons, ih, checkTargetStep_approachSends]
      by_cases h : (p.map (shouldNotifyApproaching d)).getD false = true <;> simp [h] <;> omega

/-- `trAux` produces one true-range entry per remaining bar. -/
theorem trAux_length (prev : Bar) (l : List Bar) : (trAux prev l).length = l.length := by
  induction l generalizing prev with
  | nil => rfl
  | cons b bs ih => simp [trAux, ih]

/-- With at most 14 bars the last 14-wide true-range window either does
not exist or contains the undefined first entry, so the ATR is NaN. -/
theorem rollingMeanLast_trList (b : Bar) (bs : List Bar) (h : bs.length < 14) :
    rollingMeanLast 14 (trList (b :: bs)) = none := by
  have hl : (trList (b :: bs)).length = bs.length + 1 := by
    simp [trList, trAux_length]
  by_cases hc : (trList (b :: bs)).length < 14
  · simp [rollingMeanLast, hc]
  · have h14 : (trList (b :: bs)).length = 14 := by omega
    simp only [rollingMeanLast, hc, if_false, h14]
    simp [trList, seqOption]

/-- Counting a symbol among first components. -/
theorem count_map_fst (l : List (String × TargetData)) (s : String) :
    (l.map Prod.fst).count s = l.countP (fun t => t.1 == s) := by
  induction l with
  | nil => rfl
  | cons a l ih => simp [List.count_cons, List.countP_cons, ih]

/-! ## Claims -/

/-- Claim C1 (code_bug): the claim says that after N consecutive firing
cycles exactly one live message handle is recorded and `delete` has
been invoked on every previously recorded handle.  The monitoring loop
`run_user_check` never records any handle in `user_messages` (which is
read and cleaned up by the deletion commands but never written
anywhere) and never invokes `delete`: after 3 consecutive firing cycles
3 notifications have been sent, no handle is recorded and no delete was
ever invoked. -/
theorem c1_no_live_handle_management :
    (∀ (d : TargetData) (ps : List (Option ℚ)),
        (runCycles d ps).deleteCalls = 0 ∧ (runCycles d ps).recordedHandle = none) ∧
      (runCycles ⟨100, "below", 5⟩ [some 95, some 95, some 95]).firedSends = 3 := by
  refine ⟨fun d ps => ?_, by with_unfolding_all rfl⟩
  exact foldl_frame d ps initTrace

/-- Claim C2 counterexample: with target 100, trigger "below" and a 5%
approach threshold, the price 102 lies in the approach band; two
consecutive cycles at 102 send the approaching notification twice, not
once. -/
theorem c2_counterexample :
    (runCycles ⟨100, "below", 5⟩ [some 102, some 102]).approachSends = 2 := by
  with_unfolding_all rfl

/-- Claim C2 (amended): the approaching notification is sent on every
cycle whose available price lies in the approach band — there is no
`approach_alert_sent` guard in the code, so the notification is resent
each cycle while the price remains in the band. -/
theorem c2_approach_resent_every_cycle (d : TargetData) (ps : List (Option ℚ)) :
    (runCycles d ps).approachSends =
      ps.countP (fun p => (p.map (shouldNotifyApproaching d)).getD false) := by
  simpa [initTrace] using foldl_approachSends d ps initTrace

/-- Claim C3: for trigger "below" a cycle fires exactly when the price
is at or below the target, for "above" exactly when at or above; on
the price sequence [110, 105, 100, 95] with target 100 firing begins
exactly at the first price equal to 100 and not earlier. -/
theorem c3_trigger_correctness :
    (∀ (T a p : ℚ), shouldNotify ⟨T, "below", a⟩ p = true ↔ p ≤ T) ∧
      (∀ (T a p : ℚ), shouldNotify ⟨T, "above", a⟩ p = true ↔ T ≤ p) ∧
      (runCycles ⟨100, "below", 5⟩ [some 110, some 105]).firedSends = 0 ∧
      (runCycles ⟨100, "below", 5⟩ [some 110, some 105, some 100]).firedSends = 1 ∧
      (runCycles ⟨100, "below", 5⟩ [some 110, some 105, some 100, some 95]).firedSends = 2 := by
  refine ⟨fun T a p => ?_, fun T a p => ?_, ?_, ?_, ?_⟩
  · simp [shouldNotify]
  · show (if ("above" : String) = "below" then decide (p ≤ T)
        else if ("above" : String) = "above" then decide (p ≥ T) else false) = true ↔ T ≤ p
    rw [if_neg (by decide), if_pos rfl]
    simp [ge_iff_le]
  · with_unfolding_all rfl
  · with_unfolding_all rfl
  · with_unfolding_all rfl

/-- Claim C4 counterexample: on a one-bar frame with High 110, Low 90,
Close 100 the pivot point is P = 100, so the claimed second levels
would be R2 = 120 and S2 = 80; the result of the calculator contains only
the keys `pivot_s1`/`pivot_r1` (values 90 and 110) and no second pivot
level — no returned value equals 120 or 80. -/
theorem c4_counterexample :
    calculate_technical_levels (some frame1) =
        some { pivot_s1 := 90, pivot_r1 := 110, fib_s1 := 2559/25, fib_r1 := 2441/25,
               atr_s1 := none, atr_r1 := none, poc := some (10001/100),
               va_low := some 100, va_high := some (5001/50) } ∧
      (calculate_technical_levels (some frame1)).map (fun t => t.toDict.map Prod.fst) =
        some ["pivot_s1", "pivot_r1", "fib_s1", "fib_r1", "atr_s1", "atr_r1",
              "poc", "va_low", "va_high"] := by
  with_unfolding_all (exact ⟨rfl, rfl⟩)

/-- Claim C4 (amended): for every nonempty frame with all columns the
calculator returns a structure whose pivot support and resistance are
`S1 = round2 (2P − H_last)` and `R1 = round2 (2P − L_last)` with
`P = (H_last + L_last + C_last)/3`, rounded to 2 decimals only at the
boundary; no second pivot levels R2/S2 are computed. -/
theorem c4_pivot_s1_r1 (b : Bar) (bs : List Bar) :
    ∃ t, calculate_technical_levels (some ⟨true, true, true, true, b :: bs⟩) = some t ∧
      t.pivot_s1 = round2 (2 * pivotPoint b bs - (bs.getLastD b).high) ∧
      t.pivot_r1 = round2 (2 * pivotPoint b bs - (bs.getLastD b).low) :=
  ⟨techLevelsOf b bs, rfl, rfl, rfl⟩

/-- Claim C5 counterexample: on a frame whose swing high equals its
swing low (one bar with High = Low = Close = 100) the Fibonacci levels
are not omitted: `fib_s1` and `fib_r1` are present in the result with
value 100. -/
theorem c5_counterexample :
    swingHigh ⟨100, 100, 100, 10⟩ [] = swingLow ⟨100, 100, 100, 10⟩ [] ∧
      (calculate_technical_levels (some frameDeg)).map TechLevels.fib_s1 = some 100 ∧
      (calculate_technical_levels (some frameDeg)).map (fun t => t.toDict.map Prod.fst) =
        some ["pivot_s1", "pivot_r1", "fib_s1", "fib_r1", "atr_s1", "atr_r1",
              "poc", "va_low", "va_high"] := by
  with_unfolding_all (exact ⟨rfl, rfl, rfl⟩)

/-- Claim C5 (amended): when the swing high equals the swing low the
Fibonacci levels are still computed — the formula multiplies the zero
range by the fixed ratios instead of dividing, so both reported levels
collapse to the common swing price with no NaN and no division by a
zero range. -/
theorem c5_degenerate_fib (b : Bar) (bs : List Bar)
    (hdeg : swingHigh b bs = swingLow b bs) :
    ∃ t, calculate_technical_levels (some ⟨true, true, true, true, b :: bs⟩) = some t ∧
      t.fib_s1 = round2 (swingHigh b bs) ∧ t.fib_r1 = round2 (swingHigh b bs) := by
  refine ⟨techLevelsOf b bs, rfl, ?_, ?_⟩
  · show round2 (swingHigh b bs - 382/1000 * (swingHigh b bs - swingLow b bs)) =
      round2 (swingHigh b bs)
    rw [hdeg, sub_self, mul_zero, sub_zero]
  · show round2 (swingLow b bs + 382/1000 * (swingHigh b bs - swingLow b bs)) =
      round2 (swingHigh b bs)
    rw [hdeg, sub_self, mul_zero, add_zero]

/-- Witness for C5: the degenerate one-bar frame instantiates the
amended claim. -/
theorem c5_degenerate_fib_witness :
    ∃ t, calculate_technical_levels
        (some ⟨true, true, true, true, [⟨100, 100, 100, 10⟩]⟩) = some t ∧
      t.fib_s1 = round2 (swingHigh ⟨100, 100, 100, 10⟩ []) ∧
      t.fib_r1 = round2 (swingHigh ⟨100, 100, 100, 10⟩ []) :=
  c5_degenerate_fib ⟨100, 100, 100, 10⟩ [] rfl

/-- Claim C6: when the fetched price is unavailable the loop body is a
no-op for that target — no notification is sent or resent, no delete
happens, the recorded message handle is retained — and a run of cycles
with only unavailable prices leaves the initial state unchanged. -/
theorem c6_miss_skips (d : TargetData) (s : AlertTrace) (n : Nat) :
    checkTargetStep d none s = s ∧
      runCycles d (List.replicate n none) = initTrace := by
  refine ⟨rfl, ?_⟩
  induction n with
  | zero => rfl
  | succ n ih =>
      simpa [runCycles, List.replicate_succ, List.foldl_cons, checkTargetStep] using ih

/-- Claim C7 counterexample: two targets of different owners on the
same symbol "XYZ", both evaluated in the cycle, cause two provider
fetches of "XYZ" in that cycle, not one. -/
theorem c7_counterexample :
    (auto_check_fetches 0 (fun _ => "regular")
        [(1, [("XYZ", ⟨100, "below", 5⟩)]), (2, [("XYZ", ⟨200, "above", 5⟩)])]).count
      "XYZ" = 2 := by
  decide

/-- Claim C7 (amended): in one `auto_check` cycle the current price of
a symbol is fetched once per Target — each target of each user checked
in this cycle triggers its own fetch; there is no per-symbol cache or
grouping, so owners sharing a symbol each cause a separate fetch and
each Target is evaluated against its own fetched price. -/
theorem c7_one_fetch_per_target (minute : Nat) (roles : Nat → String)
    (registry : List (Nat × List (String × TargetData))) (s : String) :
    (auto_check_fetches minute roles registry).count s =
      ((registry.filter (fun u => decide (roles u.1 = "VIP1" ∨ minute % 5 = 0))).map
          (fun u => u.2.countP (fun t => t.1 == s))).sum := by
  induction registry with
  | nil => rfl
  | cons u regs ih =>
      by_cases hc : roles u.1 = "VIP1" ∨ minute % 5 = 0
      · simp only [auto_check_fetches, List.filter_cons]
        rw [if_pos hc, if_pos (decide_eq_true hc), List.count_append, List.map_cons,
          List.sum_cons, ih, run_user_check_fetches, count_map_fst]
      · simp only [auto_check_fetches, List.filter_cons]
        rw [if_neg hc, if_neg (by simp [hc]), ih]

/-- Claim C8 counterexample: the five-bar frame has fewer than 20 bars,
yet the calculator returns a full structure rather than an
insufficient-data result, and that structure contains the undefined
(NaN) ATR values. -/
theorem c8_counterexample :
    frame5.bars.length = 5 ∧
      (calculate_technical_levels (some frame5)).map TechLevels.atr_s1 = some none ∧
      (calculate_technical_levels (some frame5)).map TechLevels.atr_r1 = some none := by
  with_unfolding_all (exact ⟨rfl, rfl, rfl⟩)

/-- Claim C8 (amended): the calculator never raises — every exception
path yields `None` — and returns `None` exactly for an unavailable,
empty, or column-deficient frame; but there is no minimum-bar-count
check: any nonempty well-columned frame yields a structure, and with
fewer than 15 bars that structure carries undefined (NaN) ATR values. -/
theorem c8_no_insufficient_data_check :
    calculate_technical_levels none = none ∧
      (∀ f : DataFrame, f.bars = [] → calculate_technical_levels (some f) = none) ∧
      (∀ f : DataFrame, (f.hasHigh && f.hasLow && f.hasClose && f.hasVolume) = false →
          calculate_technical_levels (some f) = none) ∧
      (∀ (b : Bar) (bs : List Bar), bs.length < 14 →
          ∃ t, calculate_technical_levels (some ⟨true, true, true, true, b :: bs⟩) = some t ∧
            t.atr_s1 = none ∧ t.atr_r1 = none) := by
  refine ⟨rfl, fun f hf => ?_, fun f hcols => ?_, fun b bs hlen => ?_⟩
  · rcases f with ⟨h1, h2, h3, h4, bars⟩
    simp only at hf
    subst hf
    rfl
  · rcases f with ⟨h1, h2, h3, h4, bars⟩
    cases bars with
    | nil => rfl
    | cons b bs =>
        simp only at hcols
        simp [calculate_technical_levels, hcols]
  · refine ⟨techLevelsOf b bs, rfl, ?_, ?_⟩
    · show ((rollingMeanLast 14 (trList (b :: bs))).map
          (fun a => (bs.getLastD b).close - 1 * a)).map round2 = none
      rw [rollingMeanLast_trList b bs hlen]
      rfl
    · show ((rollingMeanLast 14 (trList (b :: bs))).map
          (fun a => (bs.getLastD b).close + 1 * a)).map round2 = none
      rw [rollingMeanLast_trList b bs hlen]
      rfl

/-- Witness for C8: the empty-frame and five-bar cases instantiate the
hypotheses of the amended claim. -/
theorem c8_no_insufficient_data_check_witness :
    calculate_technical_levels (some (⟨true, true, true, true, []⟩ : DataFrame)) = none ∧
      ∃ t, calculate_technical_levels (some ⟨true, true, true, true,
          [⟨12, 8, 10, 100⟩, ⟨13, 9, 11, 50⟩, ⟨14, 10, 12, 80⟩,
           ⟨15, 11, 13, 60⟩, ⟨16, 12, 14, 70⟩]⟩) = some t ∧
        t.atr_s1 = none ∧ t.atr_r1 = none :=
  ⟨c8_no_insufficient_data_check.2.1 ⟨true, true, true, true, []⟩ rfl,
    c8_no_insufficient_data_check.2.2.2 ⟨12, 8, 10, 100⟩
      [⟨13, 9, 11, 50⟩, ⟨14, 10, 12, 80⟩, ⟨15, 11, 13, 60⟩, ⟨16, 12, 14, 70⟩]
      (by decide)⟩

/-- Claim C9: editing a target through `EditTargetModal.on_submit`
keeps the stored `alert_threshold_percent` when the target already
exists, defaults it to 5.0 when it does not, and leaves every other
symbol of the user untouched. -/
theorem c9_edit_preserves_threshold (tgts : String → Option TargetData)
    (symbol : String) (value : ℚ) (trigger : String) :
    (∀ d : TargetData, tgts symbol = some d →
        editOnSubmit tgts symbol value trigger symbol =
          some ⟨value, trigger, d.alert_threshold_percent⟩) ∧
      (tgts symbol = none →
        editOnSubmit tgts symbol value trigger symbol = some ⟨value, trigger, 5⟩) ∧
      (∀ s : String, s ≠ symbol → editOnSubmit tgts symbol value trigger s = tgts s) := by
  refine ⟨fun d hd => ?_, fun hn => ?_, fun s hs => ?_⟩
  · simp [editOnSubmit, hd]
  · simp [editOnSubmit, hn]
  · simp [editOnSubmit, hs]

/-- Witness for C9: editing AAPL (stored threshold 7) keeps 7, editing
the absent MSFT defaults to 5, and editing AAPL leaves MSFT alone. -/
theorem c9_edit_preserves_threshold_witness :
    editOnSubmit tgts0 "AAPL" 120 "above" "AAPL" = some ⟨120, "above", 7⟩ ∧
      editOnSubmit tgts0 "MSFT" 50 "below" "MSFT" = some ⟨50, "below", 5⟩ ∧
      editOnSubmit tgts0 "AAPL" 120 "above" "MSFT" = tgts0 "MSFT" :=
  ⟨(c9_edit_preserves_threshold tgts0 "AAPL" 120 "above").1 ⟨100, "below", 7⟩ rfl,
    (c9_edit_preserves_threshold tgts0 "MSFT" 50 "below").2.1 (by decide),
    (c9_edit_preserves_threshold tgts0 "AAPL" 120 "above").2.2 "MSFT" (by decide)⟩

/-- Claim C10: in a single evaluation of one target against one price,
the approaching condition and the fired condition cannot both hold:
for "below" the approach band needs `target < price` while firing
needs `price ≤ target`, and symmetrically for "above". -/
theorem c10_approach_fire_exclusive (d : TargetData) (p : ℚ) :
    (shouldNotifyApproaching d p && shouldNotify d p) = false := by
  unfold shouldNotifyApproaching shouldNotify
  by_cases hb : d.trigger_type = "below"
  · simp only [if_pos hb]
    rcases le_or_lt p d.target with h | h
    · rw [decide_eq_false (fun hc => absurd hc.1 (not_lt.mpr h))]
      exact Bool.false_and _
    · rw [decide_eq_false (not_le.mpr h)]
      exact Bool.and_false _
  · by_cases ha : d.trigger_type = "above"
    · simp only [if_neg hb, if_pos ha]
      rcases le_or_lt d.target p with h | h
      · rw [decide_eq_false (fun hc => absurd hc.1 (not_lt.mpr h))]
        exact Bool.false_and _
      · rw [decide_eq_false (not_le.mpr h)]
        exact Bool.and_false _
    · simp [hb, ha]

end StockBot
